import Mathlib

/-!
Verification development for the question/answer rendezvous coordinator and
the answer-collection state machine of the Llama-CustomAgent repository.

The definitions below are a shallow embedding of two source files:
- src/server/mcp/askUserQuestion.ts : the pending-question table, the
  answer/cancel operations, the timeout race inside the AskUserQuestion
  tool handler, and the callback-missing short circuit.
- src/unnamed/part_000 (QuestionModal component) : per-step selection state,
  option and Other selection handlers, validation, navigation and the
  final answer aggregation.

JavaScript Map and plain-object records are embedded as association lists
with update-in-place-or-append semantics, which matches both Map.set and
object spread with a computed key. The JavaScript String.prototype.trim is
embedded explicitly over the character list.
-/

namespace AgentAsk

/-- Association-list lookup, embedding Map.get and bracket access on a
JavaScript object. Returns none when the key is absent. -/
def recGet {κ α : Type} [DecidableEq κ] : List (κ × α) → κ → Option α
  | [], _ => none
  | (k2, v) :: rest, k => if k2 = k then some v else recGet rest k

/-- Lookup with a default, embedding the idiom m[k] || d of the source. -/
def recGetD {κ α : Type} [DecidableEq κ] (m : List (κ × α)) (k : κ) (d : α) : α :=
  (recGet m k).getD d

/-- Association-list update, embedding Map.set and object spread with a
computed key: an existing key keeps its position and gets the new value, a
new key is appended at the end (JavaScript insertion-order semantics). -/
def recSet {κ α : Type} [DecidableEq κ] : List (κ × α) → κ → α → List (κ × α)
  | [], k, v => [(k, v)]
  | (k2, v2) :: rest, k, v =>
    if k2 = k then (k, v) :: rest else (k2, v2) :: recSet rest k v

/-- The WhiteSpace and LineTerminator characters removed by the JavaScript
String.prototype.trim. -/
def isJsWhitespace (c : Char) : Bool :=
  c = ' ' || c = '\t' || c = '\n' || c = '\r' || c = '\x0b' || c = '\x0c' ||
  c = '\u00A0' || c = '\u2028' || c = '\u2029' || c = '\uFEFF'

/-- Embedding of the JavaScript String.prototype.trim: drop leading and
trailing whitespace characters. -/
def jsTrim (s : String) : String :=
  ⟨((s.data.dropWhile isJsWhitespace).reverse.dropWhile isJsWhitespace).reverse⟩

/-- QuestionOption from part_000 lines 24-27. -/
structure QuestionOption where
  label : String
  description : String
deriving DecidableEq

/-- Question from part_000 lines 29-34. -/
structure Question where
  question : String
  header : String
  options : List QuestionOption
  multiSelect : Bool
deriving DecidableEq

/-! ## The pending-question race (src/server/mcp/askUserQuestion.ts)

For a single request identifier the observable state consists of whether
the pendingQuestions map still holds the entry, and whether the racing
promise inside the AskUserQuestion handler has settled, and how. Resolving
or rejecting an already-settled promise is a no-op, which settleResolve and
settleReject make explicit. -/

/-- Terminal settlement of the racing promise inside the handler. -/
inductive Outcome where
  | answered (answers : List (String × String))
  | failed (message : String)
deriving DecidableEq

/-- State of one registered request identifier: presence in the
pendingQuestions map, and the settlement of the race promise. -/
structure RaceState where
  present : Bool
  outcome : Option Outcome
deriving DecidableEq

/-- Promise resolution: settles only if nothing settled before. -/
def settleResolve (o : Option Outcome) (a : List (String × String)) : Option Outcome :=
  match o with
  | none => some (Outcome.answered a)
  | some x => some x

/-- Promise rejection: settles only if nothing settled before. -/
def settleReject (o : Option Outcome) (message : String) : Option Outcome :=
  match o with
  | none => some (Outcome.failed message)
  | some x => some x

/-- answerQuestion, lines 57-65: if the entry is present, resolve the stored
continuation, delete the entry and return true; otherwise return false. -/
def answerQuestion (s : RaceState) (answers : List (String × String)) : RaceState × Bool :=
  if s.present then
    ({ present := false, outcome := settleResolve s.outcome answers }, true)
  else (s, false)

/-- cancelQuestion, lines 70-78: if the entry is present, reject the stored
continuation with the cancellation error, delete the entry and return true;
otherwise return false. -/
def cancelQuestion (s : RaceState) : RaceState × Bool :=
  if s.present then
    ({ present := false,
       outcome := settleReject s.outcome "Question cancelled by user" }, true)
  else (s, false)

/-- The timeout callback, lines 126-129: unconditionally delete the entry and
reject the race promise with the timeout error. -/
def timeoutFire (s : RaceState) : RaceState :=
  { present := false,
    outcome := settleReject s.outcome "Question timed out waiting for user response" }

/-- State right after registration (line 123 sets the map entry; the race
promise is still unsettled). -/
def initialRace : RaceState := { present := true, outcome := none }

/-- The three events that can act on a registered request identifier. -/
inductive QEvent where
  | eAnswer (answers : List (String × String))
  | eCancel
  | eTimeout
deriving DecidableEq

/-- State transition of one event. -/
def applyEvent (s : RaceState) (e : QEvent) : RaceState :=
  match e with
  | QEvent.eAnswer a => (answerQuestion s a).1
  | QEvent.eCancel => (cancelQuestion s).1
  | QEvent.eTimeout => timeoutFire s

/-- Whether an event has an observable effect: for answerQuestion and
cancelQuestion this is exactly the boolean the source returns; for the
timeout callback it is whether its rejection settles the race promise. -/
def eventEffect (s : RaceState) (e : QEvent) : Bool :=
  match e with
  | QEvent.eAnswer a => (answerQuestion s a).2
  | QEvent.eCancel => (cancelQuestion s).2
  | QEvent.eTimeout => s.outcome.isNone

/-- Per-event effect bits along a sequential interleaving. -/
def traceEffects (s : RaceState) : List QEvent → List Bool
  | [] => []
  | e :: es => eventEffect s e :: traceEffects (applyEvent s e) es

/-- Final state after a sequential interleaving. -/
def traceState (s : RaceState) : List QEvent → RaceState
  | [] => s
  | e :: es => traceState (applyEvent s e) es

/-! ## The full AskUserQuestion handler lifecycle (lines 100-165)

The handler mints an identifier, checks the global question callback,
registers the entry, arms a five-minute setTimeout and awaits a
Promise.race of the stored continuation against the timeout. The source
contains no clearTimeout call, so only the timeout path ends with the
timer no longer scheduled. -/

/-- Which of the three settlement paths wins the race for one ask call. -/
inductive AskPath where
  | viaAnswer (answers : List (String × String))
  | viaCancel
  | viaTimeout
deriving DecidableEq

/-- The settlement event corresponding to an ask resolution path. -/
def settleEvent : AskPath → QEvent
  | AskPath.viaAnswer a => QEvent.eAnswer a
  | AskPath.viaCancel => QEvent.eCancel
  | AskPath.viaTimeout => QEvent.eTimeout

/-- Lines 134-136: Object.entries mapped to header-colon-answer lines joined
with a newline. -/
def formatAnswers (a : List (String × String)) : String :=
  String.intercalate "\n" (a.map fun p => p.1 ++ ": " ++ p.2)

/-- Observable situation when an ask invocation has produced its result:
whether the pendingQuestions map still holds the identifier, whether the
setTimeout is still scheduled, the race state for that identifier, and the
content returned to the caller (ok for a success, error for an isError
content block). -/
structure AskFinal where
  tableHasId : Bool
  timerArmed : Bool
  raceAfter : RaceState
  result : Except String String

/-- The registered ask flow, lines 117-164: the identifier was registered
(line 123) and the timer armed (line 126); the race is then settled by the
first event. On the answer path the handler formats the answers (lines
134-147); on the cancel and timeout paths the catch block deletes the map
entry again (line 150) and returns the error content. No path contains a
clearTimeout, so the timer remains scheduled except when it is the timer
itself that fired. -/
def askResolve (p : AskPath) : AskFinal :=
  match p with
  | AskPath.viaAnswer a =>
    let s1 := (answerQuestion initialRace a).1
    { tableHasId := s1.present, timerArmed := true, raceAfter := s1,
      result := Except.ok ("User\x27s answers:\n" ++ formatAnswers a) }
  | AskPath.viaCancel =>
    let s1 := (cancelQuestion initialRace).1
    { tableHasId := false, timerArmed := true, raceAfter := s1,
      result := Except.error "Question cancelled by user" }
  | AskPath.viaTimeout =>
    let s1 := timeoutFire initialRace
    { tableHasId := false, timerArmed := false, raceAfter := s1,
      result := Except.error "Question timed out waiting for user response" }

/-- The complete handler including the callback check, lines 107-115: when
no global question callback is registered the handler returns the
configuration error before the map entry is ever set and before the timer
is ever armed, so nothing is registered and nothing can fire. -/
def askCall (callbackRegistered : Bool) (p : AskPath) : AskFinal :=
  if callbackRegistered then askResolve p
  else
    { tableHasId := false, timerArmed := false,
      raceAfter := { present := false, outcome := none },
      result := Except.error "Question callback not configured" }

/-- Registration of a pending entry, line 123: pendingQuestions.set with no
presence check. The value abstracts the identity of the stored
resolve-reject continuation pair. -/
def registerPending (m : List (String × Nat)) (id : String) (entry : Nat) :
    List (String × Nat) :=
  recSet m id entry

/-! ## The QuestionModal state machine (src/unnamed/part_000)

The component state is currentStep together with the two records answers
(step index to selected labels) and otherInputs (step index to free text),
lines 44-46. The reserved sentinel label for the Other choice is the
string with value double-underscore-other-double-underscore. -/

/-- The component state, lines 44-46. -/
structure ModalState where
  currentStep : Nat
  answers : List (Nat × List String)
  otherInputs : List (Nat × String)
deriving DecidableEq

/-- The idiom answers of currentStep or empty list, used at lines 55, 83,
111, 119, 129. -/
def currentAnswers (s : ModalState) : List String :=
  recGetD s.answers s.currentStep []

/-- Fallback question used to embed indexing questions at currentStep; the
source assumes the index is in range. -/
def defaultQuestion : Question :=
  { question := "", header := "", options := [], multiSelect := false }

/-- handleOptionSelect, lines 53-79. Multi-select: toggle the label off if
present, otherwise filter the Other sentinel out and append the label.
Single-select: replace the selection with the label and clear the Other
text for the step. -/
def handleOptionSelect (qs : List Question) (s : ModalState) (optionLabel : String) :
    ModalState :=
  let currentQuestion := qs.getD s.currentStep defaultQuestion
  if currentQuestion.multiSelect then
    let cur := currentAnswers s
    if optionLabel ∈ cur then
      let newSel := cur.filter fun a => a ≠ optionLabel
      { s with answers := recSet s.answers s.currentStep newSel }
    else
      let newSel := (cur.filter fun a => a ≠ "__other__") ++ [optionLabel]
      { s with answers := recSet s.answers s.currentStep newSel }
  else
    { s with
      answers := recSet s.answers s.currentStep [optionLabel],
      otherInputs := recSet s.otherInputs s.currentStep "" }

/-- handleOtherSelect, lines 81-101. Multi-select: toggle the Other sentinel
without touching the rest. Single-select: replace the selection with the
sentinel alone. -/
def handleOtherSelect (qs : List Question) (s : ModalState) : ModalState :=
  let currentQuestion := qs.getD s.currentStep defaultQuestion
  if currentQuestion.multiSelect then
    let cur := currentAnswers s
    if "__other__" ∈ cur then
      let newSel := cur.filter fun a => a ≠ "__other__"
      { s with answers := recSet s.answers s.currentStep newSel }
    else
      { s with answers := recSet s.answers s.currentStep (cur ++ ["__other__"]) }
  else
    { s with answers := recSet s.answers s.currentStep ["__other__"] }

/-- handleOtherInputChange, lines 103-108. -/
def handleOtherInputChange (s : ModalState) (value : String) : ModalState :=
  { s with otherInputs := recSet s.otherInputs s.currentStep value }

/-- canProceed, lines 118-123: false when the current selection is empty, or
when it contains the Other sentinel and the trimmed free text is empty
(an absent free text behaves like the empty string). -/
def canProceed (s : ModalState) : Bool :=
  if (currentAnswers s).length = 0 then false
  else if "__other__" ∈ currentAnswers s ∧
      jsTrim (recGetD s.otherInputs s.currentStep "") = "" then false
  else true

/-- The per-step answer list built at lines 130-133: map the Other sentinel
to the free text of that step and every other label to itself, then drop
the empty strings (filter Boolean). -/
def answerList (stepAnswers : List String) (otherText : String) : List String :=
  (stepAnswers.map fun a => if a = "__other__" then otherText else a).filter
    fun s => s ≠ ""

/-- The forEach loop of lines 128-135: assign into the finalAnswers record,
keyed by the question header, the joined answer list of its step. -/
def buildFinalAnswersAux (idx : Nat) (qs : List Question)
    (ans : List (Nat × List String)) (oth : List (Nat × String))
    (acc : List (String × String)) : List (String × String) :=
  match qs with
  | [] => acc
  | q :: rest =>
    buildFinalAnswersAux (idx + 1) rest ans oth
      (recSet acc q.header
        (String.intercalate ", " (answerList (recGetD ans idx []) (recGetD oth idx ""))))

/-- The finalAnswers record computed by handleNext on the last step,
lines 127-135. -/
def buildFinalAnswers (qs : List Question) (ans : List (Nat × List String))
    (oth : List (Nat × String)) : List (String × String) :=
  buildFinalAnswersAux 0 qs ans oth []

/-- handleNext, lines 125-140: on the last step build the final answers and
forward them through onSubmit, leaving the component state untouched;
otherwise advance currentStep by one. The option is the payload forwarded
to the coordinator, none when nothing is forwarded. -/
def handleNext (qs : List Question) (s : ModalState) :
    ModalState × Option (List (String × String)) :=
  if s.currentStep = qs.length - 1 then
    (s, some (buildFinalAnswers qs s.answers s.otherInputs))
  else
    ({ s with currentStep := s.currentStep + 1 }, none)

/-- The Next-or-Submit control of lines 494-522: the button carries
disabled when canProceed is false, and a disabled button never fires its
onClick, so handleNext runs only when canProceed holds. -/
def nextButtonClick (qs : List Question) (s : ModalState) :
    ModalState × Option (List (String × String)) :=
  if canProceed s then handleNext qs s else (s, none)

/-- handleBack, lines 142-146: move one step back unless on the first step. -/
def handleBack (s : ModalState) : ModalState :=
  if s.currentStep = 0 then s else { s with currentStep := s.currentStep - 1 }

/-- The initial component state, lines 44-46. -/
def modalInit : ModalState := { currentStep := 0, answers := [], otherInputs := [] }

/-- Reference shape for the aggregation, following the spec words: one entry
per question in order, keyed by its header, whose value joins the selected
labels of its step with a comma and a space, the Other sentinel replaced by
the free text of the step and empty strings dropped. Compared against
buildFinalAnswers, which is taken from the source. -/
def specAggregation (idx : Nat) (qs : List Question) (ans : List (Nat × List String))
    (oth : List (Nat × String)) : List (String × String) :=
  match qs with
  | [] => []
  | q :: rest =>
    (q.header,
      String.intercalate ", " (answerList (recGetD ans idx []) (recGetD oth idx ""))) ::
      specAggregation (idx + 1) rest ans oth

/-- First question of the two-question demonstration batch: header Lang,
single-select, options A and B. -/
def q1 : Question :=
  { question := "Which language should we use?", header := "Lang",
    options := [{ label := "A", description := "" }, { label := "B", description := "" }],
    multiSelect := false }

/-- Second question of the demonstration batch: header Tools, multi-select,
options X and Y. -/
def q2 : Question :=
  { question := "Which tools should we use?", header := "Tools",
    options := [{ label := "X", description := "" }, { label := "Y", description := "" }],
    multiSelect := true }

/-- The demonstration batch of the aggregation property. -/
def qs2 : List Question := [q1, q2]

/-- The wizard state reached by selecting A on the first step, advancing,
selecting X, then Y, then Other, and typing Z in the Other input. -/
def submitState : ModalState :=
  handleOtherInputChange
    (handleOtherSelect qs2
      (handleOptionSelect qs2
        (handleOptionSelect qs2
          (handleNext qs2 (handleOptionSelect qs2 modalInit "A")).1 "X") "Y"))
    "Z"

/-- Concrete record arguments used to instantiate the aggregation theorem. -/
def demoAns : List (Nat × List String) := [(0, ["A"]), (1, ["X", "Y", "__other__"])]

/-- Concrete free-text record used to instantiate the aggregation theorem. -/
def demoOth : List (Nat × String) := [(1, "Z")]

/-- A multi-select step state whose selection holds only the Other sentinel. -/
def st7 : ModalState :=
  { currentStep := 1, answers := [(1, ["__other__"])], otherInputs := [] }

/-- A multi-select step state whose selection holds the regular label X. -/
def st7x : ModalState :=
  { currentStep := 1, answers := [(1, ["X"])], otherInputs := [] }

/-! ## Helper lemmas -/

/-- A settled race state absorbs every further event. -/
theorem settled_applyEvent (o : Outcome) (e : QEvent) :
    applyEvent { present := false, outcome := some o } e =
      { present := false, outcome := some o } := by
  cases e <;>
    simp [applyEvent, answerQuestion, cancelQuestion, timeoutFire, settleReject]

/-- No event has an observable effect on a settled race state. -/
theorem settled_noEffect (o : Outcome) (e : QEvent) :
    eventEffect { present := false, outcome := some o } e = false := by
  cases e <;> simp [eventEffect, answerQuestion, cancelQuestion]

/-- On a settled race state a whole interleaving is effect-free and leaves
the state untouched. -/
theorem settled_trace (es : List QEvent) (o : Outcome) :
    traceEffects { present := false, outcome := some o } es =
        es.map (fun _ => false) ∧
      traceState { present := false, outcome := some o } es =
        { present := false, outcome := some o } := by
  induction es with
  | nil => exact ⟨rfl, rfl⟩
  | cons e es ih =>
    refine ⟨?_, ?_⟩
    · show eventEffect _ e :: traceEffects (applyEvent _ e) es = _
      rw [settled_noEffect, settled_applyEvent, ih.1, List.map_cons]
    · show traceState (applyEvent _ e) es = _
      rw [settled_applyEvent, ih.2]

/-- The first event on a freshly registered identifier settles the race. -/
theorem firstEvent_settles (e : QEvent) :
    ∃ o : Outcome, applyEvent initialRace e = { present := false, outcome := some o } := by
  cases e with
  | eAnswer a => exact ⟨Outcome.answered a, rfl⟩
  | eCancel => exact ⟨Outcome.failed "Question cancelled by user", rfl⟩
  | eTimeout => exact ⟨Outcome.failed "Question timed out waiting for user response", rfl⟩

/-- The first event on a freshly registered identifier has an effect. -/
theorem firstEvent_effect (e : QEvent) : eventEffect initialRace e = true := by
  cases e <;> rfl

/-- Updating a key and reading it back yields the written value. -/
theorem recGet_set_self {κ α : Type} [DecidableEq κ] (m : List (κ × α)) (k : κ) (v : α) :
    recGet (recSet m k v) k = some v := by
  induction m with
  | nil => simp [recSet, recGet]
  | cons hd t ih =>
    obtain ⟨k2, v2⟩ := hd
    by_cases hk : k2 = k <;> simp [recSet, recGet, hk, ih]

/-- Defaulted variant of recGet_set_self. -/
theorem recGetD_set_self {κ α : Type} [DecidableEq κ] (m : List (κ × α)) (k : κ)
    (v : α) (d : α) : recGetD (recSet m k v) k d = v := by
  simp [recGetD, recGet_set_self]

/-- A key absent from the front part of an appended list is looked up in the
back part. -/
theorem recGet_append_of_none {κ α : Type} [DecidableEq κ] (m1 m2 : List (κ × α))
    (k : κ) (h : recGet m1 k = none) : recGet (m1 ++ m2) k = recGet m2 k := by
  induction m1 with
  | nil => rfl
  | cons hd t ih =>
    obtain ⟨k2, v2⟩ := hd
    by_cases hk : k2 = k
    · simp [recGet, hk] at h
    · simp only [recGet, hk, if_false, List.cons_append] at h ⊢
      exact ih h

/-- Writing an absent key appends the pair at the end. -/
theorem recSet_of_absent {κ α : Type} [DecidableEq κ] (m : List (κ × α)) (k : κ)
    (v : α) (h : recGet m k = none) : recSet m k v = m ++ [(k, v)] := by
  induction m with
  | nil => rfl
  | cons hd t ih =>
    obtain ⟨k2, v2⟩ := hd
    by_cases hk : k2 = k
    · simp [recGet, hk] at h
    · simp only [recGet, hk, if_false] at h
      simp only [recSet, hk, if_false, List.cons_append, ih h]

/-- With pairwise distinct headers the record-assignment loop of handleNext
produces exactly the in-order aggregation described by the spec. -/
theorem buildAux_spec (qs : List Question) : ∀ (idx : Nat)
    (ans : List (Nat × List String)) (oth : List (Nat × String))
    (acc : List (String × String)),
    (qs.map Question.header).Nodup →
    (∀ q ∈ qs, recGet acc q.header = none) →
    buildFinalAnswersAux idx qs ans oth acc = acc ++ specAggregation idx qs ans oth := by
  induction qs with
  | nil =>
    intro idx ans oth acc _ _
    simp [buildFinalAnswersAux, specAggregation]
  | cons q rest ih =>
    intro idx ans oth acc hnd habs
    simp only [List.map_cons, List.nodup_cons] at hnd
    obtain ⟨hq, hrest⟩ := hnd
    have hqa : recGet acc q.header = none := habs q (List.mem_cons_self _ _)
    simp only [buildFinalAnswersAux, specAggregation]
    rw [recSet_of_absent _ _ _ hqa]
    rw [ih (idx + 1) ans oth _ hrest ?_]
    · simp
    · intro q2 hq2
      have h1 : recGet acc q2.header = none := habs q2 (List.mem_cons_of_mem _ hq2)
      have h2 : q.header ≠ q2.header := by
        intro he
        exact hq (he ▸ List.mem_map_of_mem Question.header hq2)
      rw [recGet_append_of_none _ _ _ h1]
      simp [recGet, h2]

/-! ## Claims -/

/-- Claim C1: at-most-once settlement. For a freshly registered request
identifier, under any sequential interleaving of answerQuestion,
cancelQuestion and the timeout firing, exactly the first event has an
observable effect: it removes the table entry and settles the stored
continuation, while every subsequent event returns false, has no effect and
leaves the state unchanged. -/
theorem claim_C1_at_most_once (e : QEvent) (es : List QEvent) :
    traceEffects initialRace (e :: es) = true :: es.map (fun _ => false) ∧
    traceState initialRace (e :: es) = applyEvent initialRace e ∧
    (applyEvent initialRace e).present = false ∧
    (applyEvent initialRace e).outcome ≠ none := by
  obtain ⟨o, ho⟩ := firstEvent_settles e
  refine ⟨?_, ?_, ?_, ?_⟩
  · show eventEffect initialRace e :: traceEffects (applyEvent initialRace e) es = _
    rw [firstEvent_effect, ho, (settled_trace es o).1]
  · show traceState (applyEvent initialRace e) es = _
    rw [ho, (settled_trace es o).2]
  · rw [ho]
  · rw [ho]
    simp

/-- Claim C2 counterexample: on the answer settlement path the timeout timer
is not disarmed; the source contains no clearTimeout, so the timer is still
scheduled after the ask call resolved successfully. -/
theorem claim_C2_counterexample :
    ¬ (askResolve (AskPath.viaAnswer [("Lang", "A")])).timerArmed = false := by
  decide

/-- Claim C2 (amended): after any ask resolution the pending table no longer
contains the request identifier, but the timer is unscheduled only on the
timeout path, where it fired itself; on the answer and cancel paths the
timer remains armed, and when it later fires it neither changes the race
state nor has any observable effect. -/
theorem claim_C2_amended (p : AskPath) :
    (askResolve p).tableHasId = false ∧
    ((askResolve p).timerArmed = false ↔ p = AskPath.viaTimeout) ∧
    applyEvent (askResolve p).raceAfter QEvent.eTimeout = (askResolve p).raceAfter ∧
    eventEffect (askResolve p).raceAfter QEvent.eTimeout = false := by
  cases p <;>
    simp [askResolve, applyEvent, eventEffect, timeoutFire, answerQuestion,
      cancelQuestion, settleResolve, settleReject, initialRace]

/-- Claim C4 counterexample: registering an identifier already present in
the pending table does not fail; the entry is silently replaced, so the
previously stored continuation pair is gone. -/
theorem claim_C4_counterexample :
    recGet (registerPending [("ask_1", 1)] "ask_1" 2) "ask_1" = some 2 ∧
    recGet (registerPending [("ask_1", 1)] "ask_1" 2) "ask_1" ≠ some 1 := by
  decide

/-- Claim C4 (amended): registration is a plain Map.set with no presence
check, so registering an identifier that is already present silently
replaces the stored continuation pair with the new one and reports no
identifier-collision error. -/
theorem claim_C4_amended (m : List (String × Nat)) (k : String) (v1 v2 : Nat) :
    recGet (registerPending (registerPending m k v1) k v2) k = some v2 := by
  simpa [registerPending] using recGet_set_self (recSet m k v1) k v2

/-- Claim C5: when no question callback is registered, the handler returns
the configuration error immediately, regardless of which settlement event
might have come later, and neither a pending-table entry nor a timer
exists. -/
theorem claim_C5_channel_unavailable (p : AskPath) :
    (askCall false p).result = Except.error "Question callback not configured" ∧
    (askCall false p).tableHasId = false ∧
    (askCall false p).timerArmed = false :=
  ⟨rfl, rfl, rfl⟩

/-- Claim C3 counterexample: handleNext performs no validation of its own.
In the initial state of a two-question batch nothing is selected, so
canProceed is false, yet invoking handleNext directly advances the step
index, so the invocation is not side-effect-free. -/
theorem claim_C3_counterexample :
    canProceed modalInit = false ∧
    (handleNext qs2 modalInit).1.currentStep ≠ modalInit.currentStep := by
  decide

/-- Claim C3 (amended): the defensive refusal lives in the control, not in
the handler. The Next-or-Submit button carries the disabled attribute
whenever canProceed is false, so no click reaches handleNext: the state is
unchanged and no answer set is forwarded. handleNext itself performs no
validation and advances or submits when invoked directly. -/
theorem claim_C3_amended (qs : List Question) (s : ModalState)
    (h : canProceed s = false) : nextButtonClick qs s = (s, none) := by
  simp [nextButtonClick, h]

/-- Witness for the amended claim C3 at the initial two-question state. -/
theorem claim_C3_witness :
    canProceed modalInit = false ∧ nextButtonClick qs2 modalInit = (modalInit, none) :=
  ⟨by decide, claim_C3_amended qs2 modalInit (by decide)⟩

/-- Claim C6: validation gating biconditional. canProceed is false exactly
when the selection of the current step is empty, or it contains the Other
sentinel while the free text of the step trims to the empty string. -/
theorem claim_C6_validation_gating (s : ModalState) :
    canProceed s = false ↔
      (currentAnswers s = [] ∨
        ("__other__" ∈ currentAnswers s ∧
          jsTrim (recGetD s.otherInputs s.currentStep "") = "")) := by
  unfold canProceed
  split_ifs with h1 h2 <;>
    simp_all [List.length_eq_zero]

/-- Claim C7: other-exclusivity on a multi-select question. Selecting a
regular option that is not yet selected always removes the Other sentinel
from the selection of the step, and selecting Other never removes a
previously selected regular option. -/
theorem claim_C7_other_exclusivity :
    (∀ (qs : List Question) (s : ModalState) (optionLabel : String),
        (qs.getD s.currentStep defaultQuestion).multiSelect = true →
        optionLabel ≠ "__other__" →
        optionLabel ∉ currentAnswers s →
        "__other__" ∉ currentAnswers (handleOptionSelect qs s optionLabel)) ∧
    (∀ (qs : List Question) (s : ModalState) (r : String),
        (qs.getD s.currentStep defaultQuestion).multiSelect = true →
        r ≠ "__other__" →
        r ∈ currentAnswers s →
        r ∈ currentAnswers (handleOtherSelect qs s)) := by
  constructor
  · intro qs s optionLabel hm hl hmem
    simp only [handleOptionSelect, hm, if_true, hmem, if_false]
    intro hcontra
    simp only [currentAnswers, recGetD_set_self, List.mem_append,
      List.mem_filter, List.mem_singleton] at hcontra
    rcases hcontra with ⟨_, hne⟩ | heq
    · simp at hne
    · exact hl heq.symm
  · intro qs s r hm hr hmem
    by_cases ho : "__other__" ∈ currentAnswers s
    · simp only [handleOtherSelect, hm, if_true, ho]
      simp only [currentAnswers, recGetD_set_self, List.mem_filter]
      exact ⟨hmem, by simp [hr]⟩
    · simp only [handleOtherSelect, hm, if_true, ho, if_false]
      simp only [currentAnswers, recGetD_set_self, List.mem_append]
      exact Or.inl hmem

/-- Witness for claim C7: with the two-question batch on its multi-select
step, selecting the fresh regular label Y removes the Other sentinel, and
selecting Other keeps the previously selected regular label X. -/
theorem claim_C7_witness :
    "__other__" ∉ currentAnswers (handleOptionSelect qs2 st7 "Y") ∧
    "X" ∈ currentAnswers (handleOtherSelect qs2 st7x) :=
  ⟨claim_C7_other_exclusivity.1 qs2 st7 "Y" (by decide) (by decide) (by decide),
   claim_C7_other_exclusivity.2 qs2 st7x "X" (by decide) (by decide) (by decide)⟩

/-- Claim C8: aggregation on submit. With pairwise distinct headers,
handleNext on the last step produces one entry per question in order,
keyed by its header, whose value maps the selected labels to themselves and
the Other sentinel to the free text of the step, drops empty strings and
joins the rest with a comma and a space; in particular the two-question
batch with A selected on the Lang step and X, Y and Other text Z on the
Tools step yields the pairs Lang to A and Tools to the joined X, Y, Z. -/
theorem claim_C8_aggregation :
    (∀ (qs : List Question) (ans : List (Nat × List String))
        (oth : List (Nat × String)),
        (qs.map Question.header).Nodup →
        buildFinalAnswers qs ans oth = specAggregation 0 qs ans oth) ∧
    (handleNext qs2 submitState).2 = some [("Lang", "A"), ("Tools", "X, Y, Z")] := by
  constructor
  · intro qs ans oth h
    simpa [buildFinalAnswers] using
      buildAux_spec qs 0 ans oth [] h (fun q _ => rfl)
  · decide

/-- Witness for claim C8 at the demonstration batch and records. -/
theorem claim_C8_witness :
    buildFinalAnswers qs2 demoAns demoOth = specAggregation 0 qs2 demoAns demoOth :=
  claim_C8_aggregation.1 qs2 demoAns demoOth (by decide)

/-- Claim C9: back preserves data. handleBack never changes any selection
or free text, and moves the step index one back unless already on the
first step, where the index stays put. -/
theorem claim_C9_back_preserves (s : ModalState) :
    (handleBack s).answers = s.answers ∧
    (handleBack s).otherInputs = s.otherInputs ∧
    (handleBack s).currentStep =
      (if s.currentStep = 0 then s.currentStep else s.currentStep - 1) := by
  unfold handleBack
  split_ifs <;> exact ⟨rfl, rfl, rfl⟩

/-- Claim C10: no trimming at aggregation. When a selection contains the
Other sentinel and the free text survives validation, the aggregated
answer list contains the free text verbatim, leading and trailing
whitespace included; for the selection holding only the sentinel, the
answer list is exactly the untouched free text. -/
theorem claim_C10_no_trim (sel : List String) (oth : String)
    (h1 : "__other__" ∈ sel) (h2 : jsTrim oth ≠ "") :
    oth ∈ answerList sel oth ∧ answerList ["__other__"] oth = [oth] := by
  have hne : oth ≠ "" := by
    intro he
    exact h2 (by rw [he]; rfl)
  constructor
  · unfold answerList
    refine List.mem_filter.mpr ⟨List.mem_map.mpr ⟨"__other__", h1, by simp⟩, by simp [hne]⟩
  · unfold answerList
    simp [hne]

/-- Witness for claim C10 with the whitespace-padded free text. -/
theorem claim_C10_witness :
    " x " ∈ answerList ["__other__"] " x " ∧
    answerList ["__other__"] " x " = [" x "] :=
  claim_C10_no_trim ["__other__"] " x " (by decide) (by decide)

end AgentAsk
